import Mathlib

/-
Shallow embedding of the feedbot filtering core (src/feedbot/filters.py,
src/feedbot/feed.py, src/feedbot/bot.py).

Modelling conventions:
 - Python datetimes are rational numbers of seconds (`utc_now()` and the
   entry publication time are parameters `now`, `published : Rat`); a
   `timedelta` is its exact value in seconds as a rational.  The component
   `timedelta.seconds` (used by `AgeFilter.get_window`) is the integer part
   of the total seconds reduced modulo 86400, exactly as the Python
   `days`/`seconds`/`microseconds` normalisation computes it.
 - Python floats are treated as exact rationals.
 - `BeautifulSoup(...).get_text()` belongs to an external library, not this
   repository; the markup stripper is therefore a parameter
   `strip : String → String` of the discard functions, and theorems
   quantify over it.
 - Exceptions become an explicit error type `PyErr`; the distinction
   between error classes matters because `FilterBase.from_dict` catches
   only `TypeError` and `Feed.from_dict` catches only
   `KeyError`/`ValueError`/`AssertionError`.
-/

namespace Feedbot

/-- Python exception classes that can escape the deserialization code paths. -/
inductive PyErr
  | typeError
  | valueError
  | attributeError
  | keyError
  | assertionError
  | deserializationError
deriving DecidableEq, Repr

/-- A feed entry: `summary`, `title`, and the optional `published_parsed`
timestamp (converted by `struct_to_datetime` to a datetime, modelled as
rational seconds; `none` models a missing `published_parsed` key). -/
structure Entry where
  summary : String
  title : String
  published : Option Rat
deriving DecidableEq, Repr

/-- The state of a filter object.  `FilterBase` instances carry the `terms`
attribute set by `FilterBase.__init__`; `NotFilter` carries its lowercased
search term; `AgeFilter` carries `self.window` in seconds. -/
inductive FilterState
  | FilterBase (terms : String)
  | NotFilter (terms : String)
  | AgeFilter (window : Rat)
deriving DecidableEq, Repr

/-- Does `hay` start with `needle`?  (Helper for substring containment.) -/
def startsWithChars : List Char → List Char → Bool
  | _, [] => true
  | [], _ :: _ => false
  | c :: hs, d :: ns => c = d && startsWithChars hs ns

/-- Does `hay` contain `needle` as a contiguous run?  (Helper.) -/
def hasSubChars : List Char → List Char → Bool
  | [], needle => needle.isEmpty
  | h :: t, needle => startsWithChars (h :: t) needle || hasSubChars t needle

/-- Python substring containment `needle in hay`. -/
def strIn (needle hay : String) : Bool :=
  hasSubChars hay.toList needle.toList

/-- AgeFilter.__init__ (filters.py): `self.window = timedelta(minutes=minutes or 5)`.
`minutes` is `None` when omitted; `minutes or 5` replaces the falsy values
`None` and `0` by `5`.  The stored window is in seconds. -/
def AgeFilterInit (minutes : Option Rat) : FilterState :=
  FilterState.AgeFilter (60 * (match minutes with
    | none => 5
    | some m => if m = 0 then 5 else m))

/-- AgeFilter.set_window (filters.py): replaces `self.window` with
`timedelta(minutes=minutes)` and returns `True`.  The result is the new
window (in seconds) paired with the Python return value. -/
def set_window (minutes : Rat) : Rat × Bool :=
  (60 * minutes, true)

/-- AgeFilter.get_window (filters.py): `self.window.seconds / 60.0`.  Note
that `timedelta.seconds` is only the seconds component of the normalised
`(days, seconds, microseconds)` triple: the integer part of the total
seconds reduced modulo 86400, dropping whole days and fractional seconds. -/
def get_window (window : Rat) : Rat :=
  ((Int.floor window % 86400 : Int) : Rat) / 60

/-- discard_entry for each filter class (filters.py).  `FilterBase.discard_entry`
is an abstract method whose body is only a docstring, so calling it returns
Python `None`, modelled as `none`; the concrete filters return a boolean.
`fail_closed` is the keyword argument of `AgeFilter.discard_entry` (default
`False`); `NotFilter` ignores it.  `strip` models `BeautifulSoup(...).get_text()`
and `now` models `utc_now()`.  The function is total: no entry makes it raise. -/
def discard_entry (strip : String → String) (now : Rat) (f : FilterState)
    (entry : Entry) (fail_closed : Bool) : Option Bool :=
  match f with
  | FilterState.FilterBase _ => none
  | FilterState.NotFilter terms =>
      some (strIn terms (strip (entry.summary.toLower ++ " " ++ entry.title.toLower ++ " ")))
  | FilterState.AgeFilter window =>
      match entry.published with
      | some published_time => some (decide (window ≤ now - published_time))
      | none => some fail_closed

/-- Feed._accept_entry (feed.py):
`all([feed_filter.discard_entry(entry) is False for feed_filter in self.filters])`.
The `is False` identity test succeeds only on the boolean `False`, i.e. on the
result `some false`; `discard_entry` is called with its default `fail_closed`. -/
def accept_entry (strip : String → String) (now : Rat)
    (filters : List FilterState) (entry : Entry) : Bool :=
  filters.all (fun f => discard_entry strip now f entry false == some false)

/-- A Python value appearing in a serialization record: a string or a number
(Python ints and floats are both modelled as exact rationals). -/
inductive Value
  | str (s : String)
  | num (q : Rat)
deriving DecidableEq, Repr

/-- A serialized filter record, the argument of `FilterBase.from_dict`:
`klass` is `serialization_dict.get('class')` (absent key gives `None`),
`args` is `get('args', [])` and `kwargs` is `get('kwargs', \x7b\x7d)`
modelled as an association list. -/
structure SerDict where
  klass : Option String
  args : List Value
  kwargs : List (String × Value)
deriving DecidableEq, Repr

/-- The three classes defined in the filters module that
`FilterBase._get_filter_class` can return. -/
inductive FilterClass
  | FilterBase
  | NotFilter
  | AgeFilter
deriving DecidableEq, Repr

/-- FilterBase._get_filter_class (filters.py): `getattr(sys.modules[__name__], name)`.
A name bound to no attribute of the module raises `AttributeError`; calling
`getattr` with the `None` obtained from a missing `class` key raises
`TypeError`.  (Names bound in the module by imports, such as `timedelta`,
are outside this model, which covers the filter classes the module defines.) -/
def get_filter_class : Option String → Except PyErr FilterClass
  | none => Except.error PyErr.typeError
  | some n =>
      if n = "FilterBase" then Except.ok FilterClass.FilterBase
      else if n = "NotFilter" then Except.ok FilterClass.NotFilter
      else if n = "AgeFilter" then Except.ok FilterClass.AgeFilter
      else Except.error PyErr.attributeError

/-- Python argument binding for `__init__(self, terms)` (`FilterBase` and
`NotFilter`): one positional argument or the keyword `terms`, anything else
raises `TypeError`.  The constructor body then runs `terms.lower()`, which
raises `AttributeError` when `terms` is a number. -/
def constructTerms (args : List Value) (kwargs : List (String × Value)) :
    Except PyErr String :=
  match args, kwargs with
  | [Value.str s], [] => Except.ok s
  | [Value.num _], [] => Except.error PyErr.attributeError
  | [], [("terms", Value.str s)] => Except.ok s
  | [], [("terms", Value.num _)] => Except.error PyErr.attributeError
  | _, _ => Except.error PyErr.typeError

/-- The call `cls(*args, **kwargs)` inside `FilterBase.from_dict`, with the
raw Python exception it raises on failure.  For `AgeFilter`, the argument
binds to the optional `minutes` parameter; `timedelta(minutes=s)` on a
nonempty string raises `TypeError`, while the empty string is falsy and `s
or 5` replaces it by 5 just as it does `None` and `0`. -/
def constructFilter (cls : FilterClass) (args : List Value)
    (kwargs : List (String × Value)) : Except PyErr FilterState :=
  match cls with
  | FilterClass.FilterBase =>
      (constructTerms args kwargs).map (fun s => FilterState.FilterBase s.toLower)
  | FilterClass.NotFilter =>
      (constructTerms args kwargs).map (fun s => FilterState.NotFilter s.toLower)
  | FilterClass.AgeFilter =>
      match args, kwargs with
      | [], [] => Except.ok (AgeFilterInit none)
      | [Value.num m], [] => Except.ok (AgeFilterInit (some m))
      | [], [("minutes", Value.num m)] => Except.ok (AgeFilterInit (some m))
      | [Value.str s], [] =>
          if s = "" then Except.ok (AgeFilterInit none)
          else Except.error PyErr.typeError
      | [], [("minutes", Value.str s)] =>
          if s = "" then Except.ok (AgeFilterInit none)
          else Except.error PyErr.typeError
      | _, _ => Except.error PyErr.typeError

/-- FilterBase.from_dict (filters.py): looks the class up (errors from the
lookup propagate uncaught, the lookup happens outside the `try`), then calls
the constructor inside `try ... except TypeError: raise ValueError(...)`, so
only a `TypeError` from construction becomes a `ValueError`. -/
def from_dict (d : SerDict) : Except PyErr FilterState :=
  match get_filter_class d.klass with
  | Except.error e => Except.error e
  | Except.ok cls =>
      match constructFilter cls d.args d.kwargs with
      | Except.error PyErr.typeError => Except.error PyErr.valueError
      | r => r

/-- to_dict of each filter class (filters.py): the base contributes the class
name; `NotFilter` adds `args = [self.terms]`; `AgeFilter` adds
`kwargs = \x7b'minutes': self.get_window()\x7d`. -/
def to_dict : FilterState → SerDict
  | FilterState.FilterBase _ => ⟨some "FilterBase", [], []⟩
  | FilterState.NotFilter t => ⟨some "NotFilter", [Value.str t], []⟩
  | FilterState.AgeFilter w => ⟨some "AgeFilter", [], [("minutes", Value.num (get_window w))]⟩

/-- A serialized feed record, the argument of `Feed.from_dict`; each field is
`None` when the corresponding key is missing. -/
structure FeedDict where
  klass : Option String
  name : Option String
  url : Option String
  filters : Option (List SerDict)
deriving DecidableEq, Repr

/-- The feed a successful `Feed.from_dict` constructs. -/
structure FeedVal where
  name : String
  url : String
  filters : List FilterState
deriving DecidableEq, Repr

/-- Python `data_dict[key]`: raises `KeyError` when the key is missing. -/
def keyGet {α : Type} (o : Option α) : Except PyErr α :=
  match o with
  | none => Except.error PyErr.keyError
  | some x => Except.ok x

/-- Feed.to_dict (feed.py). -/
def Feed_to_dict (name url : String) (filters : List FilterState) : FeedDict :=
  ⟨some "Feed", some name, some url, some (filters.map to_dict)⟩

/-- The body of `Feed.from_dict` (feed.py) before its `except` clause, in the
order Python evaluates it: the `class` lookup and assertion, the `filters`
lookup and the deserialization loop, then the `name` and `url` lookups. -/
def Feed_from_dict_body (d : FeedDict) : Except PyErr FeedVal := do
  let k ← keyGet d.klass
  if k = "Feed" then pure () else throw PyErr.assertionError
  let fds ← keyGet d.filters
  let fs ← fds.mapM from_dict
  let n ← keyGet d.name
  let u ← keyGet d.url
  pure ⟨n, u, fs⟩

/-- Feed.from_dict (feed.py): the body wrapped in
`except (KeyError, ValueError, AssertionError): raise DeserializationError(...)`.
Any other exception (in particular the `AttributeError` from an unknown
filter class name) propagates unchanged. -/
def Feed_from_dict (d : FeedDict) : Except PyErr FeedVal :=
  match Feed_from_dict_body d with
  | Except.error PyErr.keyError => Except.error PyErr.deserializationError
  | Except.error PyErr.valueError => Except.error PyErr.deserializationError
  | Except.error PyErr.assertionError => Except.error PyErr.deserializationError
  | r => r

/-
Feed objects (feed.py).  Python filters are heap objects compared by `==`,
which for these classes (no `__eq__` defined) is reference identity; the
back-reference `self.age_filter` aliases an object that normally also sits
in `self.filters`.  The model makes identity explicit: filter objects are
ids into a store, the chain is a list of ids, and the back-reference is an
optional id (`none` models both an absent `age_filter` attribute, as
`getattr(self, 'age_filter', None)` reads it, and one set to `None`).
-/

/-- The mutable state of a `Feed` instance. -/
structure FeedState where
  name : String
  url : String
  chain : List Nat
  store : List (Nat × FilterState)
  nextId : Nat
  age_filter : Option Nat
deriving DecidableEq, Repr

/-- Feed.set_age_filter (feed.py): when `getattr(self, 'age_filter', None)`
is truthy (an `AgeFilter` object), call `set_window(time_period)` on it in
place; otherwise allocate `AgeFilter(time_period)` and store it in the
back-reference.  In both branches the final statement
`self.filters.append(self.age_filter)` appends the referenced object to the
chain. -/
def set_age_filter (time_period : Rat) (fd : FeedState) : FeedState :=
  match fd.age_filter with
  | some fid =>
      { fd with
        store := fd.store.map
          (fun p => if p.1 = fid then (p.1, FilterState.AgeFilter (set_window time_period).1) else p),
        chain := fd.chain ++ [fid] }
  | none =>
      { fd with
        store := fd.store ++ [(fd.nextId, AgeFilterInit (some time_period))],
        nextId := fd.nextId + 1,
        age_filter := some fd.nextId,
        chain := fd.chain ++ [fd.nextId] }

/-- Feed.remove_filter (feed.py): first, if the argument `==` the object in
`self.age_filter` (reference identity, since filters define no `__eq__`),
clear the back-reference; then `self.filters.remove(feed_filter)` removes
the first chain element `==` the argument, raising `ValueError` when none
is.  The cleared back-reference survives the raise, so the result is the
state after the mutations paired with the exception, if any. -/
def remove_filter (feed_filter : Nat) (fd : FeedState) : FeedState × Option PyErr :=
  let fd2 := if fd.age_filter = some feed_filter then { fd with age_filter := none } else fd
  if feed_filter ∈ fd2.chain then
    ({ fd2 with chain := fd2.chain.erase feed_filter }, none)
  else
    (fd2, some PyErr.valueError)

/-
History tracker (bot.py): `self.entry_history = deque(maxlen=capacity)`
holding entry links, oldest first.  The capacity comes from the settings
module, which is not part of the claims; it is a parameter here.
-/

/-- FeedBot._seen_entry (bot.py): `entry.link in self.entry_history`. -/
def seen_entry (history : List String) (link : String) : Bool :=
  decide (link ∈ history)

/-- FeedBot._add_entry_to_history (bot.py): append the link if it is not
already present; the `deque(maxlen=capacity)` then evicts the leftmost
(oldest) element whenever the length would exceed the capacity. -/
def add_entry_to_history (capacity : Nat) (history : List String) (link : String) :
    List String :=
  if link ∈ history then history
  else (history ++ [link]).drop (history.length + 1 - capacity)

/-- A freshly constructed feed with no filters, as `Feed(name, url)` builds
it: empty chain, no `age_filter` attribute. -/
def emptyFeedState : FeedState :=
  { name := "news", url := "http://example.org/rss",
    chain := [], store := [], nextId := 0, age_filter := none }

/-- A feed holding one `NotFilter('a')` object (id 0) in its chain, while a
second, distinct `NotFilter('a')` object (id 1) with identical configuration
exists outside the chain. -/
def feedTwoEqualObjects : FeedState :=
  { name := "news", url := "http://example.org/rss",
    chain := [0],
    store := [(0, FilterState.NotFilter "a"), (1, FilterState.NotFilter "a")],
    nextId := 2, age_filter := none }

/-- A feed whose chain holds exactly its tracked age filter (id 0, a
5-minute window). -/
def feedAgeRef : FeedState :=
  { name := "news", url := "http://example.org/rss",
    chain := [0],
    store := [(0, FilterState.AgeFilter 300)],
    nextId := 1, age_filter := some 0 }

end Feedbot

namespace Feedbot

/-- C3: for every entry and every filter chain, `_accept_entry` returns true
iff `discard_entry` returns `False` for every filter in the chain, and a Feed
with an empty chain accepts every entry. -/
theorem accept_entry_iff_all_discard_false (strip : String → String) (now : Rat)
    (filters : List FilterState) (entry : Entry) :
    (accept_entry strip now filters entry = true ↔
      ∀ f ∈ filters, discard_entry strip now f entry false = some false) ∧
    accept_entry strip now [] entry = true := by
  constructor
  · simp [accept_entry, List.all_eq_true]
  · rfl

/-- C8: the age filter discards an entry carrying a publication time iff
`now - published_time` is at least the window; the boundary `now - window`
is discarded (inclusive), and an entry strictly younger than the window is
kept. -/
theorem age_filter_inclusive_boundary (strip : String → String)
    (now published w : Rat) (s t : String) :
    (discard_entry strip now (FilterState.AgeFilter w) ⟨s, t, some published⟩ false
        = some true ↔ w ≤ now - published) ∧
    discard_entry strip now (FilterState.AgeFilter w) ⟨s, t, some (now - w)⟩ false
        = some true ∧
    (now - published < w →
      discard_entry strip now (FilterState.AgeFilter w) ⟨s, t, some published⟩ false
        = some false) := by
  refine ⟨?_, ?_, ?_⟩
  · simp [discard_entry]
  · simp [discard_entry]
  · intro h
    simp [discard_entry]
    linarith

/-- Witness for C8 at concrete inputs: with `now = 100`, window `10` seconds,
an entry published at `95` (younger than the window) is kept, and one
published exactly at `90 = now - 10` is discarded. -/
theorem age_filter_inclusive_boundary_witness :
    discard_entry id 100 (FilterState.AgeFilter 10) ⟨"a", "b", some 90⟩ false
      = some true ∧
    discard_entry id 100 (FilterState.AgeFilter 10) ⟨"a", "b", some 95⟩ false
      = some false := by
  have h := age_filter_inclusive_boundary id 100 95 10 "a" "b"
  refine ⟨?_, h.2.2 (by norm_num)⟩
  have h2 := h.2.1
  norm_num at h2 ⊢
  exact h2

/-- C9: on an entry with no publication time the age filter returns `False`
under the default fail-open policy and `True` under fail-closed; the modelled
function is total, so no such entry makes it raise. -/
theorem age_filter_missing_timestamp_policy (strip : String → String)
    (now w : Rat) (s t : String) :
    discard_entry strip now (FilterState.AgeFilter w) ⟨s, t, none⟩ false
      = some false ∧
    discard_entry strip now (FilterState.AgeFilter w) ⟨s, t, none⟩ true
      = some true :=
  ⟨rfl, rfl⟩

/-- C10: constructing an age filter with `minutes=0` or with no argument
yields the 5-minute (300-second) default window, and so does deserializing a
record with `minutes: 0`; no constructor argument yields a zero window, even
though `set_window(0)` sets one on an existing filter. -/
theorem age_filter_constructor_zero_default :
    AgeFilterInit none = FilterState.AgeFilter 300 ∧
    AgeFilterInit (some 0) = FilterState.AgeFilter 300 ∧
    from_dict ⟨some "AgeFilter", [], [("minutes", Value.num 0)]⟩
      = Except.ok (FilterState.AgeFilter 300) ∧
    (∀ m : Option Rat, (AgeFilterInit m == FilterState.AgeFilter 0) = false) ∧
    (set_window 0).1 = 0 ∧ (set_window 0).2 = true := by
  refine ⟨by norm_num [AgeFilterInit], by norm_num [AgeFilterInit],
    by norm_num [from_dict, get_filter_class, constructFilter, AgeFilterInit]; rfl,
    ?_, by norm_num [set_window], rfl⟩
  intro m
  cases m with
  | none => norm_num [AgeFilterInit, beq_eq_false_iff_ne]
  | some x =>
      by_cases hx : x = 0
      · subst hx; norm_num [AgeFilterInit, beq_eq_false_iff_ne]
      · simp [AgeFilterInit, hx, beq_eq_false_iff_ne, FilterState.AgeFilter.injEq]

/-- C2 (code bug): deserializing a filter record whose class name is not
bound in the filters module raises `AttributeError` from the bare `getattr`,
which neither the `except TypeError` in `FilterBase.from_dict` nor the
`except (KeyError, ValueError, AssertionError)` in `Feed.from_dict` catches,
so a generic `AttributeError` escapes instead of the documented
`DeserializationError`. -/
theorem unknown_kind_raises_attribute_error :
    from_dict ⟨some "QuuxFilter", [], []⟩ = Except.error PyErr.attributeError ∧
    Feed_from_dict ⟨some "Feed", some "n", some "u", some [⟨some "QuuxFilter", [], []⟩]⟩
      = Except.error PyErr.attributeError ∧
    (PyErr.attributeError == PyErr.deserializationError) = false :=
  ⟨rfl, rfl, by decide⟩

/-- C1 counterexample: the age filter constructed with `minutes=1440` has a
one-day window, but `get_window` reads only the seconds component of the
`timedelta`, so it serializes as `minutes: 0` and deserializes to the
5-minute default window; the two filters decide differently on an entry
published 600 seconds before now. -/
theorem roundtrip_discard_counterexample :
    AgeFilterInit (some 1440) = FilterState.AgeFilter 86400 ∧
    from_dict (to_dict (FilterState.AgeFilter 86400))
      = Except.ok (FilterState.AgeFilter 300) ∧
    discard_entry id 1000 (FilterState.AgeFilter 86400) ⟨"s", "t", some 400⟩ false
      = some false ∧
    discard_entry id 1000 (FilterState.AgeFilter 300) ⟨"s", "t", some 400⟩ false
      = some true := by
  refine ⟨by norm_num [AgeFilterInit], ?_, ?_, ?_⟩
  · norm_num [to_dict, from_dict, get_filter_class, constructFilter, get_window,
      AgeFilterInit]
    rfl
  · simp [discard_entry]
    norm_num
  · simp [discard_entry]
    norm_num

/-- C1 amended: deserializing the serialization of a filter reproduces a
filter with identical discard behaviour on every entry, for every
keyword-exclusion filter whose term is already lowercase (as every
constructor-built one is) and for every age filter whose window is a whole
number of seconds strictly between zero and one day; windows of a day or
more, or with fractional seconds, are changed by the round trip. -/
theorem roundtrip_discard_amended (f : FilterState)
    (h : (∃ t, f = FilterState.NotFilter t ∧ t.toLower = t) ∨
         (∃ k : Int, f = FilterState.AgeFilter (k : Rat) ∧ 0 < k ∧ k < 86400)) :
    ∃ f2, from_dict (to_dict f) = Except.ok f2 ∧
      ∀ strip now entry fc,
        discard_entry strip now f2 entry fc = discard_entry strip now f entry fc := by
  refine ⟨f, ?_, fun _ _ _ _ => rfl⟩
  rcases h with ⟨t, rfl, ht⟩ | ⟨k, rfl, hk0, hk1⟩
  · simp [to_dict, from_dict, get_filter_class, constructFilter, constructTerms,
      Except.map, ht]
  · have hfloor : Int.floor ((k : Rat)) = k := Int.floor_intCast k
    have hmod : k % 86400 = k := Int.emod_eq_of_lt (le_of_lt hk0) hk1
    have hne : ((k : Rat)) / 60 ≠ 0 := by
      have hk : ((k : Rat)) ≠ 0 := Int.cast_ne_zero.mpr (ne_of_gt hk0)
      exact div_ne_zero hk (by norm_num)
    simp [to_dict, from_dict, get_filter_class, constructFilter, get_window,
      hfloor, hmod, AgeFilterInit, hne]
    rw [mul_comm, div_mul_cancel₀ _ (by norm_num : (60 : Rat) ≠ 0)]

/-- Helper: recording a list of pairwise-distinct links into a history that
is itself duplicate-free and within capacity keeps exactly the last
`capacity` links, in order. -/
theorem foldl_add_entry (capacity : Nat) (l : List String) :
    ∀ s : List String, (s ++ l).Nodup → s.length ≤ capacity →
      l.foldl (add_entry_to_history capacity) s
        = (s ++ l).drop (s.length + l.length - capacity) := by
  induction l with
  | nil =>
      intro s _ hle
      simp [Nat.sub_eq_zero_of_le hle]
  | cons link tl ih =>
      intro s hnd hle
      have hdisj : s.Disjoint (link :: tl) := (List.nodup_append.mp hnd).2.2
      have hmem : link ∉ s := fun hin => hdisj hin (List.mem_cons_self link tl)
      have hlist : (s ++ [link]) ++ tl = s ++ link :: tl := by simp
      have hnd2 : ((s ++ [link]) ++ tl).Nodup := by rw [hlist]; exact hnd
      rw [List.foldl_cons]
      have hstep : add_entry_to_history capacity s link
          = (s ++ [link]).drop (s.length + 1 - capacity) := by
        simp [add_entry_to_history, hmem]
      rw [hstep]
      by_cases hlt : s.length < capacity
      · have hz : s.length + 1 - capacity = 0 := by omega
        rw [hz, List.drop_zero]
        have hlen2 : (s ++ [link]).length ≤ capacity := by
          simp only [List.length_append, List.length_cons, List.length_nil]
          omega
        rw [ih (s ++ [link]) hnd2 hlen2, hlist]
        congr 1
        simp only [List.length_append, List.length_cons, List.length_nil]
        omega
      · have hone : s.length + 1 - capacity = 1 := by omega
        rw [hone]
        have hsplit : ((s ++ [link]) ++ tl).drop 1 = (s ++ [link]).drop 1 ++ tl :=
          List.drop_append_of_le_length (by simp)
        have hlen2 : ((s ++ [link]).drop 1).length ≤ capacity := by
          simp only [List.length_drop, List.length_append, List.length_cons,
            List.length_nil]
          omega
        have hnd3 : ((s ++ [link]).drop 1 ++ tl).Nodup := by
          rw [← hsplit]
          exact hnd2.sublist (List.drop_sublist 1 _)
        rw [ih ((s ++ [link]).drop 1) hnd3 hlen2]
        rw [← hsplit, hlist, List.drop_drop]
        congr 1
        simp only [List.length_drop, List.length_append, List.length_cons,
          List.length_nil]
        omega

/-- C4: after recording more distinct links than the capacity into a fresh
history, the first-recorded link is no longer seen while each of the last
`capacity` links is; recording a link already present leaves the history
unchanged. -/
theorem history_eviction (capacity : Nat) (x : String) (rest : List String)
    (hnd : (x :: rest).Nodup) (hlen : capacity < (x :: rest).length) :
    seen_entry ((x :: rest).foldl (add_entry_to_history capacity) []) x = false ∧
    (∀ y ∈ (x :: rest).drop ((x :: rest).length - capacity),
      seen_entry ((x :: rest).foldl (add_entry_to_history capacity) []) y = true) ∧
    (∀ history link, seen_entry history link = true →
      add_entry_to_history capacity history link = history) := by
  have hfold := foldl_add_entry capacity (x :: rest) [] (by simpa using hnd)
    (Nat.zero_le capacity)
  simp only [List.nil_append, List.length_nil, Nat.zero_add] at hfold
  refine ⟨?_, ?_, ?_⟩
  · rw [hfold]
    have hd : (x :: rest).length - capacity = (rest.length - capacity) + 1 := by
      simp only [List.length_cons] at hlen ⊢
      omega
    rw [hd, List.drop_succ_cons]
    have hx : x ∉ rest := (List.nodup_cons.mp hnd).1
    have hxd : x ∉ rest.drop (rest.length - capacity) :=
      fun hmem => hx (List.mem_of_mem_drop hmem)
    simp [seen_entry, hxd]
  · intro y hy
    rw [hfold]
    simp only [seen_entry, decide_eq_true_eq]
    exact hy
  · intro history link hseen
    have hlm : link ∈ history := by simpa [seen_entry] using hseen
    simp [add_entry_to_history, hlm]

/-- Witness for C4 with capacity 2 and the three distinct links a, b, c: the
first is evicted, the last two are seen, and re-recording a present link is
a no-op. -/
theorem history_eviction_witness :
    seen_entry ((["a", "b", "c"] : List String).foldl (add_entry_to_history 2) []) "a"
      = false ∧
    seen_entry ((["a", "b", "c"] : List String).foldl (add_entry_to_history 2) []) "b"
      = true ∧
    seen_entry ((["a", "b", "c"] : List String).foldl (add_entry_to_history 2) []) "c"
      = true ∧
    add_entry_to_history 2 ["b", "c"] "c" = ["b", "c"] := by
  have h := history_eviction 2 "a" ["b", "c"] (by decide) (by decide)
  exact ⟨h.1, h.2.1 "b" (by decide), h.2.1 "c" (by decide),
    h.2.2 ["b", "c"] "c" (by decide)⟩

/-- C5 (code bug): setting the age filter twice on a fresh feed updates the
window in place but appends the same tracked object to the chain a second
time, because `self.filters.append(self.age_filter)` runs unconditionally;
the chain ends as two aliases of one filter instead of staying unchanged. -/
theorem set_age_filter_duplicates_chain_entry :
    (set_age_filter 10 emptyFeedState).chain = [0] ∧
    (set_age_filter 10 emptyFeedState).age_filter = some 0 ∧
    (set_age_filter 20 (set_age_filter 10 emptyFeedState)).chain = [0, 0] ∧
    (set_age_filter 20 (set_age_filter 10 emptyFeedState)).store
      = [(0, FilterState.AgeFilter 1200)] ∧
    (set_age_filter 20 (set_age_filter 10 emptyFeedState)).age_filter = some 0 := by
  refine ⟨?_, ?_, ?_, ?_, ?_⟩ <;>
    norm_num [set_age_filter, emptyFeedState, set_window, AgeFilterInit]

/-- C6 counterexample: `set_window(1440)` (one day) succeeds, but
`get_window()` then returns `0`, not `1440`, because `timedelta.seconds`
drops whole days. -/
theorem set_window_get_window_counterexample :
    (set_window 1440).2 = true ∧
    get_window (set_window 1440).1 = 0 ∧
    decide (get_window (set_window 1440).1 = 1440) = false := by
  have h0 : get_window (set_window 1440).1 = 0 := by
    norm_num [set_window, get_window]
  refine ⟨rfl, h0, ?_⟩
  rw [h0]
  norm_num

/-- C6 amended: `set_window(m)` succeeds for every `m`, and for every
non-negative `m` whose window `m * 60` is a whole number of seconds below
one day, `get_window()` afterwards returns `m`; windows of a day or more, or
with fractional seconds, are misreported (counterexample: `m = 1440`). -/
theorem set_get_window_amended (m : Rat) (k : Int)
    (h0 : 0 ≤ m) (hk : m * 60 = (k : Rat)) (hlt : k < 86400) :
    (set_window m).2 = true ∧ get_window (set_window m).1 = m := by
  refine ⟨rfl, ?_⟩
  have hk0 : 0 ≤ k := by
    have hq : (0 : Rat) ≤ (k : Rat) := by
      rw [← hk]
      exact mul_nonneg h0 (by norm_num)
    exact_mod_cast hq
  have h60 : (set_window m).1 = (k : Rat) := by
    rw [set_window, mul_comm]
    exact hk
  rw [get_window, h60, Int.floor_intCast, Int.emod_eq_of_lt hk0 hlt, ← hk,
    mul_div_assoc]
  norm_num

/-- Witness for C6 amended at `m = 90` minutes (a 5400-second window). -/
theorem set_get_window_amended_witness :
    (set_window 90).2 = true ∧ get_window (set_window 90).1 = 90 :=
  set_get_window_amended 90 5400 (by norm_num) (by norm_num) (by norm_num)

/-- C7 counterexample: the chain of `feedTwoEqualObjects` holds a filter
whose configuration equals that of object 1 (value equality), yet
`remove_filter` on object 1 raises `ValueError` and removes nothing, because
the `==` used by `list.remove` is reference identity for filters, which
define no custom equality. -/
theorem remove_filter_value_equality_counterexample :
    feedTwoEqualObjects.store.lookup 0 = feedTwoEqualObjects.store.lookup 1 ∧
    (0 : Nat) ∈ feedTwoEqualObjects.chain ∧
    (remove_filter 1 feedTwoEqualObjects).2 = some PyErr.valueError ∧
    (remove_filter 1 feedTwoEqualObjects).1.chain = [0] ∧
    (remove_filter 1 feedTwoEqualObjects).1.store = feedTwoEqualObjects.store :=
  ⟨rfl, by decide, rfl, rfl, rfl⟩

/-- C7 amended: `remove_filter(f)` removes from the chain the first filter
identical to `f` (reference equality, the `==` of objects with no custom
equality), raising an error when none is; when `f` is the object referenced
as the active age filter, the back-reference is cleared (even if the removal
then raises), and it is untouched otherwise; name, url and the filter
objects themselves are unchanged. -/
theorem remove_filter_amended (fd : FeedState) (fid : Nat) :
    (fid ∈ fd.chain → (remove_filter fid fd).2 = none ∧
      (remove_filter fid fd).1.chain = fd.chain.erase fid) ∧
    (fd.age_filter = some fid → (remove_filter fid fd).1.age_filter = none) ∧
    (fd.age_filter ≠ some fid → (remove_filter fid fd).1.age_filter = fd.age_filter) ∧
    (remove_filter fid fd).1.store = fd.store ∧
    (remove_filter fid fd).1.name = fd.name ∧
    (remove_filter fid fd).1.url = fd.url := by
  unfold remove_filter
  by_cases ha : fd.age_filter = some fid <;>
    by_cases hc : fid ∈ fd.chain <;>
      simp [ha, hc]

/-- Witness for C7 amended: removing the tracked age filter of `feedAgeRef`
empties the chain and clears the back-reference. -/
theorem remove_filter_amended_witness :
    (remove_filter 0 feedAgeRef).2 = none ∧
    (remove_filter 0 feedAgeRef).1.chain = [] ∧
    (remove_filter 0 feedAgeRef).1.age_filter = none := by
  have h := remove_filter_amended feedAgeRef 0
  refine ⟨(h.1 (by decide)).1, ?_, h.2.1 (by decide)⟩
  have h2 := (h.1 (by decide)).2
  simpa using h2

/-- Witness for C1 amended at the concrete age filter with a 300-second
(5-minute) window. -/
theorem roundtrip_discard_amended_witness :
    ∃ f2, from_dict (to_dict (FilterState.AgeFilter ((300 : Int) : Rat)))
        = Except.ok f2 ∧
      ∀ strip now entry fc,
        discard_entry strip now f2 entry fc
          = discard_entry strip now (FilterState.AgeFilter ((300 : Int) : Rat)) entry fc :=
  roundtrip_discard_amended _ (Or.inr ⟨300, rfl, by decide, by decide⟩)

end Feedbot
